import Mathlib

/-!
Verification of the fints-postbank repository: a shallow embedding of the
modules `tan.py`, `menu.py`, `ui.py`, `transaction_db.py`,
`config/settings.py`, `update_api_mode.py` and `update_bot_mode.py`, together
with theorems settling the behavioural claims about them.

Python values are modelled as follows: `str | None` fields become
`Option String` with Python truthiness (`None` and `""` falsy) made explicit;
machine integers are `Int`/`Nat` (no overflow is reachable in this code);
fallible code returns `Option`/`Except`; the scripted input stream of an I/O
adapter is a `List String`, and exhausting it models the adapter-level
timeout.
-/

namespace FintsPostbank

/-! ### Python-semantics helpers -/

/-- Truthiness of a Python `str | None` value: `None` and `""` are falsy. -/
def pyTruthy : Option String → Bool
  | none => false
  | some s => !(s == "")

/-- Truthiness of a Python `bool | None` value (e.g. a `getattr(.., None)` result). -/
def pyTruthyBool : Option Bool → Bool
  | none => false
  | some b => b

/-- Characters removed by Python `str.strip()` (ASCII whitespace). -/
def isPythonSpace (c : Char) : Bool :=
  c == ' ' || c == '\t' || c == '\n' || c == '\r' || c == '\x0b' || c == '\x0c'

/-- Python `str.strip()`: drop leading and trailing whitespace. -/
def pyStrip (s : String) : String :=
  ⟨((s.data.dropWhile isPythonSpace).reverse.dropWhile isPythonSpace).reverse⟩

/-- Python `str.lower()` restricted to ASCII letters (the only characters the
indicator matching below depends on). -/
def pyLower (s : String) : String :=
  ⟨s.data.map Char.toLower⟩

/-- Python `needle in haystack` substring test. -/
def containsSub (haystack needle : String) : Bool :=
  decide (needle.data <:+: haystack.data)

/-- Numeric value of a decimal digit character. -/
def pyDigitValue (c : Char) : Nat :=
  c.toNat - '0'.toNat

/-- Digit-sequence parser for Python `int(...)`: after the first digit, single
underscores are permitted between digits (Python 3.6 numeric literals). -/
def parseDigitsGo (acc : Nat) : List Char → Option Nat
  | [] => some acc
  | '_' :: c :: rest =>
    if c.isDigit then parseDigitsGo (acc * 10 + pyDigitValue c) rest else none
  | c :: rest =>
    if c.isDigit then parseDigitsGo (acc * 10 + pyDigitValue c) rest else none

/-- Parse a nonempty digit sequence, first character must be a digit. -/
def parseDigits : List Char → Option Nat
  | [] => none
  | c :: rest => if c.isDigit then parseDigitsGo (pyDigitValue c) rest else none

/-- Python `int(s)` on a string: strips whitespace, accepts an optional sign
followed by ASCII digits; returns `none` where Python raises `ValueError`. -/
def parsePyInt (s : String) : Option Int :=
  match (pyStrip s).data with
  | '+' :: rest => (parseDigits rest).map (fun n => (n : Int))
  | '-' :: rest => (parseDigits rest).map (fun n => -(n : Int))
  | cs => (parseDigits cs).map (fun n => (n : Int))

/-! ### Dates (`datetime.date`)

`Date` models Python `datetime.date`; `toOrdinal` is `date.toordinal()`
computed exactly as CPython does (`_days_before_year` + `_days_before_month`
+ day), `weekday` is `date.weekday()` (`(toordinal + 6) % 7`, Monday = 0),
and `subDays d n` models `d - timedelta(days=n)` as `n` single-day calendar
decrements (the theorem `subDays_toOrdinal` recovers the ordinal equation
CPython uses). -/

structure Date where
  year : Nat
  month : Nat
  day : Nat
  deriving DecidableEq

/-- Gregorian leap-year test, as in CPython `datetime._is_leap`. -/
def isLeapYear (year : Nat) : Bool :=
  year % 4 == 0 && (year % 100 != 0 || year % 400 == 0)

/-- Days in a month, as in CPython `datetime._days_in_month`. -/
def daysInMonth (year month : Nat) : Nat :=
  match month with
  | 1 => 31
  | 2 => if isLeapYear year then 29 else 28
  | 3 => 31
  | 4 => 30
  | 5 => 31
  | 6 => 30
  | 7 => 31
  | 8 => 31
  | 9 => 30
  | 10 => 31
  | 11 => 30
  | 12 => 31
  | _ => 0

/-- Days before January 1 of `year`, as in CPython `datetime._days_before_year`. -/
def daysBeforeYear (year : Nat) : Nat :=
  365 * (year - 1) + (year - 1) / 4 - (year - 1) / 100 + (year - 1) / 400

/-- Days in `year` preceding the first of `month`, as in CPython
`datetime._days_before_month` (cumulative table plus leap correction). -/
def daysBeforeMonth (year month : Nat) : Nat :=
  (match month with
   | 1 => 0
   | 2 => 31
   | 3 => 59
   | 4 => 90
   | 5 => 120
   | 6 => 151
   | 7 => 181
   | 8 => 212
   | 9 => 243
   | 10 => 273
   | 11 => 304
   | 12 => 334
   | _ => 365) +
  (if 2 < month && isLeapYear year then 1 else 0)

/-- `date.toordinal()`: day 1 is January 1 of year 1. -/
def toOrdinal (d : Date) : Nat :=
  daysBeforeYear d.year + daysBeforeMonth d.year d.month + d.day

/-- Validity of a `datetime.date` triple (year range as in CPython). -/
def ValidDate (d : Date) : Prop :=
  1 ≤ d.year ∧ d.year ≤ 9999 ∧ 1 ≤ d.month ∧ d.month ≤ 12 ∧
    1 ≤ d.day ∧ d.day ≤ daysInMonth d.year d.month

instance (d : Date) : Decidable (ValidDate d) := by
  unfold ValidDate; infer_instance

/-- `date.weekday()`: Monday = 0 .. Sunday = 6. -/
def weekday (d : Date) : Nat :=
  (toOrdinal d + 6) % 7

/-- The calendar day before `d`. -/
def prevDay (d : Date) : Date :=
  if 1 < d.day then ⟨d.year, d.month, d.day - 1⟩
  else if 1 < d.month then ⟨d.year, d.month - 1, daysInMonth d.year (d.month - 1)⟩
  else ⟨d.year - 1, 12, 31⟩

/-- `d - timedelta(days=n)`, as `n` single-day decrements. -/
def subDays (d : Date) : Nat → Date
  | 0 => d
  | n + 1 => prevDay (subDays d n)

/-! ### `transaction_db.py` — `TransactionDatabase`

The SQLite table `sent_transactions` is modelled as a list of rows holding the
serialized column values; `UNIQUE(fints_username, transaction_date, amount,
purpose_hash)` together with `INSERT OR IGNORE` becomes a guarded append.
The serializers `isoformat` (for `transaction_date.isoformat()`), `strAmount`
(for `str(amount)` on a `Decimal`) and `hashPurpose` (for `_hash_purpose`,
a SHA-256 prefix) are kept as parameters: every theorem below holds for all
of them. -/

structure SentTransaction where
  fints_username : String
  transaction_date : String
  amount : String
  name : String
  purpose_hash : String
  deriving DecidableEq

/-- The `WHERE` clause of `is_transaction_sent` / the `UNIQUE` constraint:
matches on username, date, amount and purpose hash (`name` is not part of
the key). -/
def sentKeyMatches (row : SentTransaction)
    (user dateStr amountStr purposeHash : String) : Bool :=
  row.fints_username == user && row.transaction_date == dateStr &&
    row.amount == amountStr && row.purpose_hash == purposeHash

/-- `TransactionDatabase.is_transaction_sent`. -/
def isTransactionSent {δ α : Type} (hashPurpose : String → String)
    (isoformat : δ → String) (strAmount : α → String)
    (db : List SentTransaction) (fints_username : String)
    (transaction_date : δ) (amount : α) (name purpose : String) : Bool :=
  let _ := name
  let purpose_hash := hashPurpose purpose
  db.any (fun row =>
    sentKeyMatches row fints_username (isoformat transaction_date)
      (strAmount amount) purpose_hash)

/-- `TransactionDatabase.mark_transaction_sent` (`INSERT OR IGNORE`). -/
def markTransactionSent {δ α : Type} (hashPurpose : String → String)
    (isoformat : δ → String) (strAmount : α → String)
    (db : List SentTransaction) (fints_username : String)
    (transaction_date : δ) (amount : α) (name purpose : String) :
    List SentTransaction :=
  let purpose_hash := hashPurpose purpose
  if db.any (fun row =>
      sentKeyMatches row fints_username (isoformat transaction_date)
        (strAmount amount) purpose_hash) then
    db
  else
    db ++ [⟨fints_username, isoformat transaction_date, strAmount amount,
            name, purpose_hash⟩]

/-- `TransactionDatabase.get_sent_count` with a username filter. -/
def getSentCount (db : List SentTransaction) (fints_username : String) : Nat :=
  (db.filter (fun row => row.fints_username == fints_username)).length

/-! ### `ui.py` / `io/telegram.py` / `io/xmpp.py` — `get_valid_choice`

All three implementations (console fallback in `ui.py`, and the identical
loops in `TelegramAdapter.get_valid_choice` and `XmppAdapter.get_valid_choice`)
run the same loop: read an input, strip it, return the default on empty input
when one was supplied, parse an integer, return it when in `[0, max_index]`,
otherwise re-prompt. The scripted input stream is a list; exhausting it models
the adapter-level timeout (`none`). The result carries the accepted choice,
the number of re-prompts that occurred, and the unconsumed inputs. -/

def getValidChoice (max_index : Int) (default : Option Int) :
    List String → Option (Int × Nat × List String)
  | [] => none
  | input :: rest =>
    let user_input := pyStrip input
    if user_input == "" && default.isSome then
      some (default.getD 0, 0, rest)
    else
      let retry := (getValidChoice max_index default rest).map
        (fun r => (r.1, r.2.1 + 1, r.2.2))
      match parsePyInt user_input with
      | some choice =>
        if decide (0 ≤ choice) && decide (choice ≤ max_index) then
          some (choice, 0, rest)
        else retry
      | none => retry

/-! ### `menu.py` -/

/-- `menu.is_dialog_error`: case-insensitive substring match of the
expired-session indicators against the error text. -/
def dialogErrorIndicators : List String :=
  ["dialog", "geschlossen", "closed", "9999", "session"]

def isDialogError (error : String) : Bool :=
  dialogErrorIndicators.any (fun indicator => containsSub (pyLower error) indicator)

/-- `menu.get_transaction_date_range(choice)` evaluated at a given `today`
(the source reads `date.today()`): 1 = today, 2 = this week (Monday..today),
3 = this month, 4 = this year, anything else = last 365 days. -/
def getTransactionDateRange (choice : Int) (today : Date) : Date × Date :=
  if choice == 1 then (today, today)
  else if choice == 2 then (subDays today (weekday today), today)
  else if choice == 3 then ({ today with day := 1 }, today)
  else if choice == 4 then ({ today with month := 1, day := 1 }, today)
  else (subDays today 365, today)

inductive MenuOutcome
  | exited
  | reconnect
  | looped (last_action : Int × Option Int)
  deriving DecidableEq

/-- One pass of the `while True` body of `menu.run_menu_loop`, with the value
returned by `show_menu` (`choice`, where `-1` is the repeat-last-action
default), the value `show_transactions_menu` would return (`period_choice`),
and the outcomes of the two fetch operations given as parameters. Python's
`choice = last_action[0]` reassignment is the `repeatChoice` binding; the
repeat-transactions special case (fetch then `continue`) is the first branch.
`MenuOutcome.reconnect` is `return True`, `MenuOutcome.exited` is
`return False`, `MenuOutcome.looped` carries the `last_action` for the next
iteration, and `Except.error` is an uncaught re-raise. -/
def menuIteration (last_action : Int × Option Int) (choice : Int)
    (period_choice : Int) (balanceResult : Except String Unit)
    (txResult : Except String Unit) : Except String MenuOutcome :=
  let repeatChoice := if choice == -1 && !(last_action.1 == 0) then last_action.1 else choice
  if choice == -1 && !(last_action.1 == 0) && repeatChoice == 2 && last_action.2.isSome then
    match txResult with
    | .ok _ => .ok (.looped last_action)
    | .error e => if isDialogError e then .ok .reconnect else .error e
  else if repeatChoice == 0 then .ok .exited
  else if repeatChoice == 1 then
    match balanceResult with
    | .ok _ => .ok (.looped (1, none))
    | .error e => if isDialogError e then .ok .reconnect else .error e
  else if repeatChoice == 2 then
    if period_choice == 0 then .ok (.looped last_action)
    else
      match txResult with
      | .ok _ => .ok (.looped (2, some period_choice))
      | .error e => if isDialogError e then .ok .reconnect else .error e
  else .ok (.looped last_action)

/-! ### `tan.py` — TAN mechanism handling

The FinTS client's mutable TAN selection is the `ClientState`; the bank's
advertised mechanisms (a Python `dict`, hence an insertion-ordered association
list) and the advertised media list (`client.get_tan_media()[1]`) are
parameters. `getattr(mechanism, "needs_tan_medium", None)` is an
`Option Bool`, `getattr(mechanism, "supported_media_number", 0)` an `Int`. -/

structure TanMechanism where
  name : String
  needs_tan_medium : Option Bool
  supported_media_number : Int
  deriving DecidableEq

structure TanMedium where
  tan_medium_name : String
  deriving DecidableEq

/-- The TAN-relevant fields of `config.settings.Settings`. -/
structure Settings where
  tan_mechanism : Option String
  tan_mechanism_name : Option String
  tan_medium : Option String
  deriving DecidableEq

/-- The TAN selection held by the `FinTS3PinTanClient`
(`set_tan_mechanism` / `set_tan_medium` targets). -/
structure ClientState where
  tanMechanism : Option String
  tanMedium : Option String
  deriving DecidableEq

/-- `tan._try_use_saved_preferences`: returns whether the saved preferences
were applied, together with the client state after the call (the saved
mechanism is applied to the client before the medium is looked up, so a
failed medium match still leaves the mechanism set). -/
def tryUseSavedPreferences (settings : Settings)
    (mechanisms : List (String × TanMechanism)) (media : List TanMedium)
    (client : ClientState) : Bool × ClientState :=
  if !(pyTruthy settings.tan_mechanism) || !(pyTruthy settings.tan_mechanism_name) then
    (false, client)
  else
    match settings.tan_mechanism with
    | none => (false, client)
    | some mechKey =>
      match mechanisms.lookup mechKey with
      | none => (false, client)
      | some chosen_mechanism =>
        let client := { client with tanMechanism := some mechKey }
        if (pyTruthyBool chosen_mechanism.needs_tan_medium
              || decide (chosen_mechanism.supported_media_number > 0))
            && pyTruthy settings.tan_medium then
          match media.find? (fun medium =>
              some medium.tan_medium_name == settings.tan_medium) with
          | some medium =>
            (true, { client with tanMedium := some medium.tan_medium_name })
          | none => (false, client)
        else
          (true, client)

inductive BootstrapError
  | noMechanismsAvailable
  | noMediaAvailable
  | adapterTimeout
  deriving DecidableEq

/-- `tan._select_tan_mechanism`: auto-select a sole mechanism, otherwise
prompt through `get_valid_choice` over the scripted inputs. Returns the
chosen (key, name, mechanism), the updated client state and the remaining
inputs; `none` models the adapter timeout. -/
def selectTanMechanism (mechanisms : List (String × TanMechanism))
    (client : ClientState) (inputs : List String) :
    Option ((String × String × TanMechanism) × ClientState × List String) :=
  match mechanisms with
  | [(key, mechanism)] =>
    some ((key, mechanism.name, mechanism),
      { client with tanMechanism := some key }, inputs)
  | _ =>
    match getValidChoice ((mechanisms.length : Int) - 1) none inputs with
    | none => none
    | some (choice, _, rest) =>
      match mechanisms[choice.toNat]? with
      | some (key, mechanism) =>
        some ((key, mechanism.name, mechanism),
          { client with tanMechanism := some key }, rest)
      | none => none

/-- `tan._select_tan_medium`: error on an empty media list, auto-select a
sole medium, otherwise prompt through `get_valid_choice`. -/
def selectTanMedium (media : List TanMedium) (client : ClientState)
    (inputs : List String) :
    Except BootstrapError (String × ClientState × List String) :=
  match media with
  | [] => .error .noMediaAvailable
  | [medium] =>
    .ok (medium.tan_medium_name,
      { client with tanMedium := some medium.tan_medium_name }, inputs)
  | _ =>
    match getValidChoice ((media.length : Int) - 1) none inputs with
    | none => .error .adapterTimeout
    | some (choice, _, rest) =>
      match media[choice.toNat]? with
      | some selected =>
        .ok (selected.tan_medium_name,
          { client with tanMedium := some selected.tan_medium_name }, rest)
      | none => .error .adapterTimeout

structure BootstrapResult where
  usedSavedPreferences : Bool
  savedPreferences : Option (String × String × Option String)
  client : ClientState
  deriving DecidableEq

/-- The manual-selection tail of `tan.interactive_cli_bootstrap`
(lines 193-208): select a mechanism, select a medium when the mechanism
requires one or advertises media, then call `save_tan_preferences` — recorded
here as the `savedPreferences` triple. -/
def manualSelectionFlow (mechanisms : List (String × TanMechanism))
    (media : List TanMedium) (client : ClientState) (inputs : List String) :
    Except BootstrapError BootstrapResult :=
  match selectTanMechanism mechanisms client inputs with
  | none => .error .adapterTimeout
  | some ((mech_key, mech_name, chosen_mechanism), client, inputs) =>
    if pyTruthyBool chosen_mechanism.needs_tan_medium
        || decide (chosen_mechanism.supported_media_number > 0) then
      match selectTanMedium media client inputs with
      | .error e => .error e
      | .ok (medium_name, client, _) =>
        .ok ⟨false, some (mech_key, mech_name, some medium_name), client⟩
    else
      .ok ⟨false, some (mech_key, mech_name, none), client⟩

/-- `tan.interactive_cli_bootstrap` over the advertised mechanisms/media:
fail when no mechanism is advertised; unless forced, try the saved
preferences and return on success; otherwise run the manual selection flow
(on the client state as left behind by the preference attempt). -/
def interactiveCliBootstrap (mechanisms : List (String × TanMechanism))
    (media : List TanMedium) (settings : Settings)
    (force_tan_selection : Bool) (client : ClientState)
    (inputs : List String) : Except BootstrapError BootstrapResult :=
  if mechanisms.length == 0 then .error .noMechanismsAvailable
  else if force_tan_selection then
    manualSelectionFlow mechanisms media client inputs
  else
    match tryUseSavedPreferences settings mechanisms media client with
    | (true, client) => .ok ⟨true, none, client⟩
    | (false, client) => manualSelectionFlow mechanisms media client inputs

/-- Modelled from the spec: the pending-challenge response object
(`fints.client.NeedTANResponse`) is produced by the external banking library,
which is not part of this repository; per the spec it carries "a challenge
text, an optional decoupled-confirmation flag (no code entry, just
confirmation), and an optional flicker/visual code payload". -/
structure NeedTANResponse where
  challenge : String
  challenge_hhduc : Option String
  decoupled : Bool
  deriving DecidableEq

inductive ChallengeEvent
  | confirmationPrompt
  | flickerRender
  | tanPrompt
  deriving DecidableEq

/-- `tan.handle_tan_challenge` over a scripted input stream: returns the
submitted TAN string and the prompts/side-channel renderings that occurred
(`none` models the adapter timeout). The source tests
`response.challenge_hhduc` twice: the first test returns early with `""`,
so the flicker branch guarded by the identical second test is preserved here
but unreachable. -/
def handleTanChallenge (response : NeedTANResponse) (inputs : List String) :
    Option (String × List ChallengeEvent) :=
  if pyTruthy response.challenge_hhduc then
    match inputs with
    | _ :: _ => some ("", [.confirmationPrompt])
    | [] => none
  else
    let flickerEvents :=
      if pyTruthy response.challenge_hhduc then [ChallengeEvent.flickerRender] else []
    match inputs with
    | input :: _ => some (pyStrip input, flickerEvents ++ [.tanPrompt])
    | [] => none

/-! ### `config/settings.py` — `save_tan_preferences`

The `.env` file is a list of lines, each a list of characters. The source
builds an `updates` dict of the variables to write (the medium key only when
`medium` is truthy), replaces every line that starts with `VAR=` for some
`VAR` in `updates` by `VAR=value`, and appends the variables that matched no
line. Since the keys in `updates` are pairwise distinct, tracking
`updated_vars` as in the source is equivalent to the map/filter below. -/

abbrev EnvLine := List Char

def fintsTanMechanismKey : List Char := "FINTS_TAN_MECHANISM".data
def fintsTanMechanismNameKey : List Char := "FINTS_TAN_MECHANISM_NAME".data
def fintsTanMediumKey : List Char := "FINTS_TAN_MEDIUM".data

/-- The line `var=value`. -/
def mkAssignment (var value : List Char) : EnvLine :=
  var ++ '=' :: value

/-- `line.startswith(f"{var_name}=")`. -/
def lineStartsWithVar (var : List Char) (line : EnvLine) : Bool :=
  decide ((var ++ ['=']) <+: line)

/-- The `updates` dict of `save_tan_preferences`: mechanism and name always,
the medium key only when `medium` is truthy. -/
def tanPreferenceUpdates (mechanism mechanism_name : List Char)
    (medium : Option (List Char)) : List (List Char × List Char) :=
  [(fintsTanMechanismKey, mechanism), (fintsTanMechanismNameKey, mechanism_name)] ++
    (match medium with
     | some m => if m == [] then [] else [(fintsTanMediumKey, m)]
     | none => [])

/-- Rewrite one existing line: replace it by `var=value` for the first
matching update, keep it unchanged otherwise. -/
def rewriteLine (updates : List (List Char × List Char)) (line : EnvLine) : EnvLine :=
  match updates.find? (fun u => lineStartsWithVar u.1 line) with
  | some u => mkAssignment u.1 u.2
  | none => line

/-- `settings.save_tan_preferences` on the file content. -/
def saveTanPreferences (mechanism mechanism_name : List Char)
    (medium : Option (List Char)) (lines : List EnvLine) : List EnvLine :=
  let updates := tanPreferenceUpdates mechanism mechanism_name medium
  let new_lines := lines.map (rewriteLine updates)
  let missing := updates.filter (fun u => !(lines.any (lineStartsWithVar u.1)))
  new_lines ++ missing.map (fun u => mkAssignment u.1 u.2)

/-! ### `update_api_mode.py` / `update_bot_mode.py` — unattended drivers -/

/-- The parameters accepted by `tan.interactive_cli_bootstrap`
(tan.py lines 162-166). -/
def interactiveCliBootstrapParams : List String :=
  ["client", "force_tan_selection", "io"]

/-- The keyword arguments of the `interactive_cli_bootstrap` call at
update_api_mode.py line 243 (the client is the one positional argument). -/
def updateApiBootstrapKeywordArgs : List String :=
  ["force_tan_selection", "io", "account"]

/-- The keyword arguments of the `interactive_cli_bootstrap` call at
update_bot_mode.py line 225. -/
def updateBotBootstrapKeywordArgs : List String :=
  ["force_tan_selection", "io", "account"]

/-- Python call binding: every keyword argument must name a parameter,
otherwise the call raises `TypeError` before the callee body runs. -/
def callBindsKeywords (params kwargs : List String) : Bool :=
  kwargs.all (fun kw => params.contains kw)

inductive PyError
  | typeError (message : String)
  | otherError (message : String)
  deriving DecidableEq

/-- Outcome of a `_run_fints_session` call: exit code plus the banking
operations that were performed. An error carries the operations performed
before the raise. -/
structure SessionRun where
  exitCode : Int
  bankingOperations : List String
  deriving DecidableEq

/-- `update_api_mode._run_fints_session` up to and including the
`interactive_cli_bootstrap` call (lines 227-243), which precedes the `try:`
block and every banking operation; the rest of the function is the
continuation `rest`, reached only if the call binds. No banking operation
has been performed when the call fails to bind, so the error carries `[]`. -/
def runFintsSessionApiMode (rest : Except (PyError × List String) SessionRun) :
    Except (PyError × List String) SessionRun :=
  if callBindsKeywords interactiveCliBootstrapParams updateApiBootstrapKeywordArgs then
    rest
  else
    .error (.typeError "interactive_cli_bootstrap got an unexpected keyword argument account", [])

/-- `update_bot_mode._run_fints_session` up to and including the
`interactive_cli_bootstrap` call (lines 211-225); same structure as the
update-api variant. -/
def runFintsSessionBotMode (rest : Except (PyError × List String) SessionRun) :
    Except (PyError × List String) SessionRun :=
  if callBindsKeywords interactiveCliBootstrapParams updateBotBootstrapKeywordArgs then
    rest
  else
    .error (.typeError "interactive_cli_bootstrap got an unexpected keyword argument account", [])

/-- The `session_thread` wrapper used identically by both chat backends in
both modes: a normal return is passed through, any uncaught exception makes
the driver's result `1`. -/
def sessionThreadOutcome (result : Except (PyError × List String) SessionRun) :
    SessionRun :=
  match result with
  | .ok run => run
  | .error (_, ops) => ⟨1, ops⟩

/-- The messages sent through the chat adapter by the completion phase of an
unattended sync run. -/
inductive SyncMessage
  | summary
  | transactionDetail
  deriving DecidableEq

structure SyncCompletion where
  chatMessages : List SyncMessage
  storedBalance : Option ℚ
  exitCode : Int
  deriving DecidableEq

/-- The completion phase of `update_api_mode._run_fints_session`
(lines 379-414): read the previously stored balance, decide
`balance_changed`, store the fetched balance when one was fetched, send the
summary (plus one detail line per new transaction) only when the balance
changed, and return exit code 0. `Decimal` comparison is numeric (`ℚ`). -/
def finishApiSyncRun {α : Type} (previous_balance balance_value : Option ℚ)
    (new_transactions : List α) : SyncCompletion :=
  let balance_changed := balance_value.isSome &&
    (previous_balance.isNone || !(decide (previous_balance = balance_value)))
  let stored := if balance_value.isSome then balance_value else previous_balance
  let messages :=
    if balance_changed then
      SyncMessage.summary :: new_transactions.map (fun _ => SyncMessage.transactionDetail)
    else []
  ⟨messages, stored, 0⟩

/-! ## Theorems -/

/-- C1: for every continuation (any configuration, any chat backend), the
unattended session routine of both modes fails with the `TypeError` from the
unexpected `account` keyword before reaching any banking operation, and the
driver thread turns that into exit code 1 with an empty banking trace. -/
theorem C1_unattended_session_always_fails
    (restApi restBot : Except (PyError × List String) SessionRun) :
    runFintsSessionApiMode restApi
        = .error (.typeError "interactive_cli_bootstrap got an unexpected keyword argument account", [])
    ∧ sessionThreadOutcome (runFintsSessionApiMode restApi) = ⟨1, []⟩
    ∧ runFintsSessionBotMode restBot
        = .error (.typeError "interactive_cli_bootstrap got an unexpected keyword argument account", [])
    ∧ sessionThreadOutcome (runFintsSessionBotMode restBot) = ⟨1, []⟩ :=
  ⟨rfl, rfl, rfl, rfl⟩

/-- C4: evaluation of `handle_tan_challenge` at the inputs that separate the
decoupled flag from the flicker payload. A response carrying the
decoupled-confirmation flag but no flicker payload is sent down the manual
entry path and the typed code is returned instead of the empty string; a
response carrying only a flicker payload is answered with the empty string
and the flicker side channel is never rendered. -/
theorem C4_handle_tan_challenge_keys_on_flicker_payload :
    handleTanChallenge ⟨"Please confirm in app", none, true⟩ ["123456"]
        = some ("123456", [.tanPrompt])
    ∧ handleTanChallenge ⟨"Scan the code", some "flickerdata", false⟩ ["123456"]
        = some ("", [.confirmationPrompt]) :=
  ⟨rfl, rfl⟩

/-- C5: when the fetched balance equals the stored one the completion phase
sends no chat message and exits 0; when the stored balance differs or is
absent it sends exactly one summary message and the stored balance afterwards
equals the fetched value. -/
theorem C5_balance_change_gating {α : Type} (b : ℚ) (previous : Option ℚ)
    (new_transactions : List α) :
    ((finishApiSyncRun (some b) (some b) new_transactions).chatMessages = []
      ∧ (finishApiSyncRun (some b) (some b) new_transactions).exitCode = 0
      ∧ (finishApiSyncRun (some b) (some b) new_transactions).storedBalance = some b)
    ∧ (previous ≠ some b →
        ((finishApiSyncRun previous (some b) new_transactions).chatMessages.count
            SyncMessage.summary = 1
          ∧ (finishApiSyncRun previous (some b) new_transactions).storedBalance = some b
          ∧ (finishApiSyncRun previous (some b) new_transactions).exitCode = 0)) := by
  constructor
  · simp [finishApiSyncRun]
  · intro hne
    have hdec : decide (previous = some b) = false := decide_eq_false hne
    refine ⟨?_, ?_, ?_⟩ <;>
      simp only [finishApiSyncRun, hdec, Option.isSome_some, Bool.not_false,
        Bool.and_true, Bool.true_and, Bool.or_true, if_true, List.count_cons,
        ite_true]
    · simp [List.count_replicate]

/-- C5 witness: stored balance 100, fetched balance 105, one new transaction. -/
theorem C5_balance_change_gating_witness :
    (finishApiSyncRun (some (100 : ℚ)) (some (105 : ℚ)) [()]).chatMessages.count
        SyncMessage.summary = 1
      ∧ (finishApiSyncRun (some (100 : ℚ)) (some (105 : ℚ)) [()]).storedBalance = some 105
      ∧ (finishApiSyncRun (some (100 : ℚ)) (some (105 : ℚ)) [()]).exitCode = 0 :=
  (C5_balance_change_gating 105 (some 100) [()]).2 (by decide)

/-- C6: an error from any of the three menu operations (balance fetch,
transaction fetch, repeat-last-action) produces the reconnect signal exactly
when the lowercased message contains an expired-session indicator, and is
re-raised unchanged otherwise. -/
theorem C6_dialog_errors_trigger_reconnect (last_action : Int × Option Int)
    (period_choice : Int) (e : String)
    (balanceResult txResult : Except String Unit) :
    (menuIteration last_action 1 period_choice (.error e) txResult
        = if isDialogError e then .ok .reconnect else .error e)
    ∧ (¬(period_choice = 0) →
        menuIteration last_action 2 period_choice balanceResult (.error e)
          = if isDialogError e then .ok .reconnect else .error e)
    ∧ (last_action.1 = 2 → last_action.2.isSome = true →
        menuIteration last_action (-1) period_choice balanceResult (.error e)
          = if isDialogError e then .ok .reconnect else .error e) := by
  refine ⟨?_, fun hpc => ?_, fun h1 h2 => ?_⟩
  · rfl
  · have : (period_choice == 0) = false := by simpa using hpc
    simp [menuIteration, this]
  · simp [menuIteration, h1, h2]

/-- C6 witness: a "dialog closed" error reconnects, a generic error is
re-raised out of the balance operation. -/
theorem C6_dialog_errors_trigger_reconnect_witness :
    menuIteration (0, none) 1 0 (.error "HBCI Dialog was closed") (.ok ())
        = .ok .reconnect
    ∧ menuIteration (2, some 1) (-1) 0 (.ok ()) (.error "connection refused")
        = .error "connection refused" := by
  constructor
  · have h := (C6_dialog_errors_trigger_reconnect (0, none) 0
      "HBCI Dialog was closed" (.error "HBCI Dialog was closed") (.ok ())).1
    rw [h]
    rfl
  · have h := (C6_dialog_errors_trigger_reconnect (2, some 1) 0
      "connection refused" (.ok ()) (.error "connection refused")).2.2
      (by rfl) (by rfl)
    rw [h]
    rfl

/-- C7: marking the same transaction twice is a no-op the second time — after
the first call the transaction reads as sent, the second call leaves the
table unchanged, and the per-user sent count does not increase; this holds
for every purpose hash function and every date/amount serialization. -/
theorem C7_mark_transaction_sent_idempotent {δ α : Type}
    (hashPurpose : String → String) (isoformat : δ → String)
    (strAmount : α → String) (db : List SentTransaction)
    (fints_username : String) (transaction_date : δ) (amount : α)
    (name purpose : String) :
    isTransactionSent hashPurpose isoformat strAmount
        (markTransactionSent hashPurpose isoformat strAmount db fints_username
          transaction_date amount name purpose)
        fints_username transaction_date amount name purpose = true
    ∧ markTransactionSent hashPurpose isoformat strAmount
        (markTransactionSent hashPurpose isoformat strAmount db fints_username
          transaction_date amount name purpose)
        fints_username transaction_date amount name purpose
      = markTransactionSent hashPurpose isoformat strAmount db fints_username
          transaction_date amount name purpose
    ∧ getSentCount
        (markTransactionSent hashPurpose isoformat strAmount
          (markTransactionSent hashPurpose isoformat strAmount db fints_username
            transaction_date amount name purpose)
          fints_username transaction_date amount name purpose)
        fints_username
      = getSentCount
          (markTransactionSent hashPurpose isoformat strAmount db fints_username
            transaction_date amount name purpose)
          fints_username := by
  by_cases h : db.any (fun row =>
      sentKeyMatches row fints_username (isoformat transaction_date)
        (strAmount amount) (hashPurpose purpose)) = true
  · have e1 : markTransactionSent hashPurpose isoformat strAmount db
        fints_username transaction_date amount name purpose = db := by
      simp [markTransactionSent, h]
    rw [e1]
    exact ⟨by simp [isTransactionSent, h], e1, by rw [e1]⟩
  · have e1 : markTransactionSent hashPurpose isoformat strAmount db
        fints_username transaction_date amount name purpose
        = db ++ [((⟨fints_username, isoformat transaction_date, strAmount amount,
            name, hashPurpose purpose⟩ : SentTransaction))] := by
      simp only [markTransactionSent, if_neg h]
    have h2 : ((db ++ [((⟨fints_username, isoformat transaction_date, strAmount amount,
            name, hashPurpose purpose⟩ : SentTransaction))]).any (fun row =>
          sentKeyMatches row fints_username (isoformat transaction_date)
            (strAmount amount) (hashPurpose purpose))) = true := by
      simp [sentKeyMatches]
    have e2 : markTransactionSent hashPurpose isoformat strAmount
        (db ++ [((⟨fints_username, isoformat transaction_date, strAmount amount,
            name, hashPurpose purpose⟩ : SentTransaction))])
        fints_username transaction_date amount name purpose
        = db ++ [((⟨fints_username, isoformat transaction_date, strAmount amount,
            name, hashPurpose purpose⟩ : SentTransaction))] := by
      simp [markTransactionSent, h2]
    rw [e1]
    exact ⟨by simp only [isTransactionSent]; exact h2, e2, by rw [e2]⟩

/-- C8: the choice loop shared by all adapters never yields an out-of-range
value (any accepted value is in range or is the supplied default), returns
the default immediately on empty stripped input, and on the scripted inputs
"abc", "-1", "5", "1" with `max_index = 2` and no default returns 1 after
exactly three re-prompts, consuming the whole stream. -/
theorem C8_get_valid_choice_loop (max_index : Int) (default : Option Int)
    (inputs : List String) :
    (∀ c k rem, getValidChoice max_index default inputs = some (c, k, rem) →
        (0 ≤ c ∧ c ≤ max_index) ∨ default = some c)
    ∧ (∀ d input rest, default = some d → pyStrip input = "" →
        getValidChoice max_index default (input :: rest) = some (d, 0, rest))
    ∧ getValidChoice 2 none ["abc", "-1", "5", "1"] = some (1, 3, []) := by
  refine ⟨?_, ?_, by rfl⟩
  · induction inputs with
    | nil => intro c k rem h; simp [getValidChoice] at h
    | cons input rest ih =>
      intro c k rem h
      simp only [getValidChoice] at h
      by_cases hempty : (pyStrip input == "" && default.isSome) = true
      · rw [if_pos hempty] at h
        obtain ⟨-, hsome⟩ := Bool.and_eq_true_iff.mp hempty
        obtain ⟨d, hd⟩ := Option.isSome_iff_exists.mp hsome
        right
        simp only [Option.some.injEq, Prod.mk.injEq] at h
        rw [hd]
        rw [hd, Option.getD_some] at h
        rw [h.1]
      · rw [if_neg hempty] at h
        rcases hp : parsePyInt (pyStrip input) with - | choice <;>
          simp only [hp] at h
        · obtain ⟨⟨c', k', rem'⟩, hr, hmap⟩ := Option.map_eq_some'.mp h
          simp only [Prod.mk.injEq] at hmap
          exact hmap.1 ▸ ih c' k' rem' hr
        · by_cases hin : (decide (0 ≤ choice) && decide (choice ≤ max_index)) = true
          · rw [if_pos hin] at h
            obtain ⟨h0, h1⟩ := Bool.and_eq_true_iff.mp hin
            simp only [Option.some.injEq, Prod.mk.injEq] at h
            exact Or.inl ⟨h.1 ▸ of_decide_eq_true h0, h.1 ▸ of_decide_eq_true h1⟩
          · rw [if_neg hin] at h
            obtain ⟨⟨c', k', rem'⟩, hr, hmap⟩ := Option.map_eq_some'.mp h
            simp only [Prod.mk.injEq] at hmap
            exact hmap.1 ▸ ih c' k' rem' hr
  · intro d input rest hd hstrip
    simp [getValidChoice, hstrip, hd]

/-- C8 witness: the scripted run accepted the in-range value 1. -/
theorem C8_get_valid_choice_loop_witness :
    (0 ≤ (1 : Int) ∧ (1 : Int) ≤ 2) ∨ (none : Option Int) = some 1 :=
  (C8_get_valid_choice_loop 2 none ["abc", "-1", "5", "1"]).1 1 3 [] (by rfl)

/-! Helper lemmas about `.env` line rewriting for C2. -/

/-- If a line starts with `w=` and the prefixes `v=`, `w=` are incomparable,
the line does not start with `v=`. -/
theorem startsWith_false_of_incomparable (v w : List Char) (l : EnvLine)
    (hwl : lineStartsWithVar w l = true)
    (hvw : ¬((v ++ ['=']) <+: (w ++ ['='])))
    (hwv : ¬((w ++ ['=']) <+: (v ++ ['=']))) :
    lineStartsWithVar v l = false := by
  unfold lineStartsWithVar at hwl ⊢
  rw [decide_eq_true_eq] at hwl
  rw [decide_eq_false_iff_not]
  intro hvl
  rcases Nat.le_total (v ++ ['=']).length (w ++ ['=']).length with hle | hle
  · exact hvw (List.prefix_of_prefix_length_le hvl hwl hle)
  · exact hwv (List.prefix_of_prefix_length_le hwl hvl hle)

theorem startsWith_mkAssignment_self (v val : List Char) :
    lineStartsWithVar v (mkAssignment v val) = true := by
  unfold lineStartsWithVar mkAssignment
  rw [decide_eq_true_eq]
  exact ⟨val, by simp⟩

theorem startsWith_mkAssignment_other (v w val : List Char)
    (hvw : ¬((v ++ ['=']) <+: (w ++ ['='])))
    (hwv : ¬((w ++ ['=']) <+: (v ++ ['=']))) :
    lineStartsWithVar v (mkAssignment w val) = false :=
  startsWith_false_of_incomparable v w _ (startsWith_mkAssignment_self w val) hvw hwv

/-- The three preference keys have pairwise incomparable `KEY=` prefixes. -/
theorem tanKeys_incomparable :
    (¬((fintsTanMechanismKey ++ ['=']) <+: (fintsTanMechanismNameKey ++ ['='])))
    ∧ (¬((fintsTanMechanismNameKey ++ ['=']) <+: (fintsTanMechanismKey ++ ['='])))
    ∧ (¬((fintsTanMechanismKey ++ ['=']) <+: (fintsTanMediumKey ++ ['='])))
    ∧ (¬((fintsTanMediumKey ++ ['=']) <+: (fintsTanMechanismKey ++ ['='])))
    ∧ (¬((fintsTanMechanismNameKey ++ ['=']) <+: (fintsTanMediumKey ++ ['='])))
    ∧ (¬((fintsTanMediumKey ++ ['=']) <+: (fintsTanMechanismNameKey ++ ['=']))) := by
  decide

/-- Every entry of the `updates` dict is one of the three preference
assignments. -/
theorem mem_tanPreferenceUpdates {mechanism mechanism_name : List Char}
    {medium : Option (List Char)} {u : List Char × List Char}
    (hu : u ∈ tanPreferenceUpdates mechanism mechanism_name medium) :
    u = (fintsTanMechanismKey, mechanism)
    ∨ u = (fintsTanMechanismNameKey, mechanism_name)
    ∨ ∃ m, medium = some m ∧ u = (fintsTanMediumKey, m) := by
  unfold tanPreferenceUpdates at hu
  rcases medium with - | m
  · simp at hu
    tauto
  · by_cases hm : (m == []) = true
    · simp [hm] at hu
      tauto
    · simp [hm] at hu
      rcases hu with h | h | h
      · exact Or.inl (by simp [h])
      · exact Or.inr (Or.inl (by simp [h]))
      · exact Or.inr (Or.inr ⟨m, rfl, by simp [h]⟩)

/-- Core overwrite lemma: if `(v, tv)` is in the updates, every other update
key writes lines not starting with `v=`, and every update with key `v`
carries value `tv`, then every line of the result that starts with `v=` is
exactly `v=tv`. -/
theorem save_overwrites_key (lines : List EnvLine)
    (mechanism mechanism_name : List Char) (medium : Option (List Char))
    (v tv : List Char)
    (huv : (v, tv) ∈ tanPreferenceUpdates mechanism mechanism_name medium)
    (hother : ∀ u ∈ tanPreferenceUpdates mechanism mechanism_name medium,
      u.1 ≠ v → lineStartsWithVar v (mkAssignment u.1 u.2) = false)
    (huniq : ∀ u ∈ tanPreferenceUpdates mechanism mechanism_name medium,
      u.1 = v → u.2 = tv) :
    ∀ l ∈ saveTanPreferences mechanism mechanism_name medium lines,
      lineStartsWithVar v l = true → l = mkAssignment v tv := by
  intro l hl hstart
  unfold saveTanPreferences at hl
  rcases List.mem_append.mp hl with hmap | hmiss
  · obtain ⟨line, hline, rfl⟩ := List.mem_map.mp hmap
    unfold rewriteLine at hstart ⊢
    rcases hfind : (tanPreferenceUpdates mechanism mechanism_name medium).find?
        (fun u => lineStartsWithVar u.1 line) with - | u <;>
      rw [hfind] at hstart ⊢ <;> dsimp only at hstart ⊢
    · exfalso
      have hzero := List.find?_eq_none.mp hfind (v, tv) huv
      simp only [Bool.not_eq_true] at hzero
      rw [hstart] at hzero
      exact Bool.true_eq_false.mp hzero
    · have humem := List.mem_of_find?_eq_some hfind
      by_cases hv : u.1 = v
      · rw [hv, huniq u humem hv]
      · exact absurd hstart (by simp [hother u humem hv])
  · obtain ⟨u, hu, rfl⟩ := List.mem_map.mp hmiss
    have humem := (List.mem_filter.mp hu).1
    by_cases hv : u.1 = v
    · rw [hv, huniq u humem hv]
    · exact absurd hstart (by simp [hother u humem hv])

/-- Core write lemma: under the same side conditions plus incomparability of
`v=` with the other keys on arbitrary lines, the assignment `v=tv` is a line
of the result. -/
theorem save_writes_key (lines : List EnvLine)
    (mechanism mechanism_name : List Char) (medium : Option (List Char))
    (v tv : List Char)
    (huv : (v, tv) ∈ tanPreferenceUpdates mechanism mechanism_name medium)
    (hincomp : ∀ u ∈ tanPreferenceUpdates mechanism mechanism_name medium,
      u.1 ≠ v → ∀ line, lineStartsWithVar v line = true →
        lineStartsWithVar u.1 line = false)
    (huniq : ∀ u ∈ tanPreferenceUpdates mechanism mechanism_name medium,
      u.1 = v → u.2 = tv) :
    mkAssignment v tv ∈ saveTanPreferences mechanism mechanism_name medium lines := by
  unfold saveTanPreferences
  by_cases hany : lines.any (lineStartsWithVar v) = true
  · obtain ⟨line, hline, hmatch⟩ := List.any_eq_true.mp hany
    apply List.mem_append_left
    refine List.mem_map.mpr ⟨line, hline, ?_⟩
    unfold rewriteLine
    rcases hfind : (tanPreferenceUpdates mechanism mechanism_name medium).find?
        (fun u => lineStartsWithVar u.1 line) with - | u <;>
      rw [hfind] <;> dsimp only
    · exfalso
      have hzero := List.find?_eq_none.mp hfind (v, tv) huv
      simp only [Bool.not_eq_true] at hzero
      rw [hmatch] at hzero
      exact Bool.true_eq_false.mp hzero
    · have humem := List.mem_of_find?_eq_some hfind
      have hpred := List.find?_some hfind
      by_cases hv : u.1 = v
      · rw [hv, huniq u humem hv]
      · exfalso
        have := hincomp u humem hv line hmatch
        rw [this] at hpred
        exact Bool.false_eq_true.mp hpred
  · apply List.mem_append_right
    refine List.mem_map.mpr ⟨(v, tv), List.mem_filter.mpr ⟨huv, ?_⟩, rfl⟩
    have hfalse : lines.any (lineStartsWithVar v) = false := by
      simpa using hany
    simp [hfalse]

/-- Core preservation lemma: a line matching none of the update keys is kept
unchanged in the result. -/
theorem save_preserves_line (lines : List EnvLine)
    (mechanism mechanism_name : List Char) (medium : Option (List Char))
    (l : EnvLine) (hl : l ∈ lines)
    (hnone : ∀ u ∈ tanPreferenceUpdates mechanism mechanism_name medium,
      lineStartsWithVar u.1 l = false) :
    l ∈ saveTanPreferences mechanism mechanism_name medium lines := by
  unfold saveTanPreferences
  apply List.mem_append_left
  refine List.mem_map.mpr ⟨l, hl, ?_⟩
  unfold rewriteLine
  rw [List.find?_eq_none.mpr (fun u hu => by simp [hnone u hu])]

/-- C2 counterexample: a manual selection that produced no medium, written to
a store that previously cached the medium `OldPhone`, leaves the stale
`FINTS_TAN_MEDIUM=OldPhone` entry in place: the store afterwards does not
hold the triple with "no medium". -/
theorem C2_counterexample :
    saveTanPreferences "901".data "SMS TAN".data none
        ["FINTS_TAN_MEDIUM=OldPhone".data]
      = ["FINTS_TAN_MEDIUM=OldPhone".data, "FINTS_TAN_MECHANISM=901".data,
          "FINTS_TAN_MECHANISM_NAME=SMS TAN".data]
    ∧ "FINTS_TAN_MEDIUM=OldPhone".data ∈
        saveTanPreferences "901".data "SMS TAN".data none
          ["FINTS_TAN_MEDIUM=OldPhone".data] := by
  constructor
  · rfl
  · decide

/-- C2 (amended): after `save_tan_preferences`, the mechanism-id and
mechanism-name keys hold exactly the new values (every line for those keys is
the new assignment, and the new assignment is present); the medium key is
overwritten in the same way only when the selection produced a (truthy)
medium; when it produced none, every previously cached medium line survives
unchanged. -/
theorem C2_save_preferences_overwrite (lines : List EnvLine)
    (mechanism mechanism_name : List Char) (medium : Option (List Char)) :
    ((∀ l ∈ saveTanPreferences mechanism mechanism_name medium lines,
        lineStartsWithVar fintsTanMechanismKey l = true →
        l = mkAssignment fintsTanMechanismKey mechanism)
      ∧ mkAssignment fintsTanMechanismKey mechanism ∈
          saveTanPreferences mechanism mechanism_name medium lines)
    ∧ ((∀ l ∈ saveTanPreferences mechanism mechanism_name medium lines,
        lineStartsWithVar fintsTanMechanismNameKey l = true →
        l = mkAssignment fintsTanMechanismNameKey mechanism_name)
      ∧ mkAssignment fintsTanMechanismNameKey mechanism_name ∈
          saveTanPreferences mechanism mechanism_name medium lines)
    ∧ (∀ m, medium = some m → ¬(m = []) →
        (∀ l ∈ saveTanPreferences mechanism mechanism_name medium lines,
          lineStartsWithVar fintsTanMediumKey l = true →
          l = mkAssignment fintsTanMediumKey m)
        ∧ mkAssignment fintsTanMediumKey m ∈
            saveTanPreferences mechanism mechanism_name medium lines)
    ∧ (medium = none → ∀ l ∈ lines,
        lineStartsWithVar fintsTanMediumKey l = true →
        l ∈ saveTanPreferences mechanism mechanism_name medium lines) := by
  obtain ⟨hMN, hNM, hMD, hDM, hND, hDN⟩ := tanKeys_incomparable
  have hkeyNM : fintsTanMechanismNameKey ≠ fintsTanMechanismKey := by decide
  have hkeyMN : fintsTanMechanismKey ≠ fintsTanMechanismNameKey := by decide
  have hkeyDM : fintsTanMediumKey ≠ fintsTanMechanismKey := by decide
  have hkeyDN : fintsTanMediumKey ≠ fintsTanMechanismNameKey := by decide
  have hkeyMD : fintsTanMechanismKey ≠ fintsTanMediumKey := by decide
  have hkeyND : fintsTanMechanismNameKey ≠ fintsTanMediumKey := by decide
  have huvM : (fintsTanMechanismKey, mechanism) ∈
      tanPreferenceUpdates mechanism mechanism_name medium := by
    unfold tanPreferenceUpdates
    simp
  have huvN : (fintsTanMechanismNameKey, mechanism_name) ∈
      tanPreferenceUpdates mechanism mechanism_name medium := by
    unfold tanPreferenceUpdates
    simp
  refine ⟨⟨?_, ?_⟩, ⟨?_, ?_⟩, ?_, ?_⟩
  · refine save_overwrites_key lines mechanism mechanism_name medium _ _ huvM
      (fun u hu hne => ?_) (fun u hu heq => ?_)
    · rcases mem_tanPreferenceUpdates hu with h | h | ⟨m, -, h⟩ <;> subst h
      · exact absurd rfl hne
      · exact startsWith_mkAssignment_other _ _ _ hMN hNM
      · exact startsWith_mkAssignment_other _ _ _ hMD hDM
    · rcases mem_tanPreferenceUpdates hu with h | h | ⟨m, -, h⟩ <;> subst h
      · rfl
      · exact absurd heq hkeyNM
      · exact absurd heq hkeyDM
  · refine save_writes_key lines mechanism mechanism_name medium _ _ huvM
      (fun u hu hne line hline => ?_) (fun u hu heq => ?_)
    · rcases mem_tanPreferenceUpdates hu with h | h | ⟨m, -, h⟩ <;> subst h
      · exact absurd rfl hne
      · exact startsWith_false_of_incomparable _ _ _ hline hNM hMN
      · exact startsWith_false_of_incomparable _ _ _ hline hDM hMD
    · rcases mem_tanPreferenceUpdates hu with h | h | ⟨m, -, h⟩ <;> subst h
      · rfl
      · exact absurd heq hkeyNM
      · exact absurd heq hkeyDM
  · refine save_overwrites_key lines mechanism mechanism_name medium _ _ huvN
      (fun u hu hne => ?_) (fun u hu heq => ?_)
    · rcases mem_tanPreferenceUpdates hu with h | h | ⟨m, -, h⟩ <;> subst h
      · exact startsWith_mkAssignment_other _ _ _ hNM hMN
      · exact absurd rfl hne
      · exact startsWith_mkAssignment_other _ _ _ hND hDN
    · rcases mem_tanPreferenceUpdates hu with h | h | ⟨m, -, h⟩ <;> subst h
      · exact absurd heq hkeyMN
      · rfl
      · exact absurd heq hkeyDN
  · refine save_writes_key lines mechanism mechanism_name medium _ _ huvN
      (fun u hu hne line hline => ?_) (fun u hu heq => ?_)
    · rcases mem_tanPreferenceUpdates hu with h | h | ⟨m, -, h⟩ <;> subst h
      · exact startsWith_false_of_incomparable _ _ _ hline hMN hNM
      · exact absurd rfl hne
      · exact startsWith_false_of_incomparable _ _ _ hline hDN hND
    · rcases mem_tanPreferenceUpdates hu with h | h | ⟨m, -, h⟩ <;> subst h
      · exact absurd heq hkeyMN
      · rfl
      · exact absurd heq hkeyDN
  · intro m hm hmne
    subst hm
    have huvD : (fintsTanMediumKey, m) ∈
        tanPreferenceUpdates mechanism mechanism_name (some m) := by
      unfold tanPreferenceUpdates
      have : (m == []) = false := by simpa using hmne
      simp [this]
    constructor
    · refine save_overwrites_key lines mechanism mechanism_name (some m) _ _ huvD
        (fun u hu hne => ?_) (fun u hu heq => ?_)
      · rcases mem_tanPreferenceUpdates hu with h | h | ⟨m', hm', h⟩ <;> subst h
        · exact startsWith_mkAssignment_other _ _ _ hDM hMD
        · exact startsWith_mkAssignment_other _ _ _ hDN hND
        · exact absurd rfl hne
      · rcases mem_tanPreferenceUpdates hu with h | h | ⟨m', hm', h⟩ <;> subst h
        · exact absurd heq hkeyMD
        · exact absurd heq hkeyND
        · obtain rfl : m = m' := by simpa using hm'
          rfl
    · refine save_writes_key lines mechanism mechanism_name (some m) _ _ huvD
        (fun u hu hne line hline => ?_) (fun u hu heq => ?_)
      · rcases mem_tanPreferenceUpdates hu with h | h | ⟨m', hm', h⟩ <;> subst h
        · exact startsWith_false_of_incomparable _ _ _ hline hMD hDM
        · exact startsWith_false_of_incomparable _ _ _ hline hND hDN
        · exact absurd rfl hne
      · rcases mem_tanPreferenceUpdates hu with h | h | ⟨m', hm', h⟩ <;> subst h
        · exact absurd heq hkeyMD
        · exact absurd heq hkeyND
        · obtain rfl : m = m' := by simpa using hm'
          rfl
  · intro hm l hl hline
    subst hm
    refine save_preserves_line lines mechanism mechanism_name none l hl
      (fun u hu => ?_)
    rcases mem_tanPreferenceUpdates hu with h | h | ⟨m', hm', h⟩ <;> subst h
    · exact startsWith_false_of_incomparable _ _ _ hline hMD hDM
    · exact startsWith_false_of_incomparable _ _ _ hline hND hDN
    · exact absurd hm' (by simp)

/-- C2 witness: writing medium `NewPhone` overwrites the cached medium line. -/
theorem C2_save_preferences_overwrite_witness :
    mkAssignment fintsTanMediumKey "NewPhone".data ∈
      saveTanPreferences "901".data "SMS TAN".data (some "NewPhone".data)
        ["FINTS_TAN_MEDIUM=OldPhone".data] :=
  ((C2_save_preferences_overwrite ["FINTS_TAN_MEDIUM=OldPhone".data]
    "901".data "SMS TAN".data (some "NewPhone".data)).2.2.1
    "NewPhone".data rfl (by decide)).2

/-- Any successful run of the manual selection flow reports that the saved
preferences were not used and records a persisted preference triple. -/
theorem manualSelectionFlow_manual (mechanisms : List (String × TanMechanism))
    (media : List TanMedium) (client : ClientState) (inputs : List String)
    (r : BootstrapResult)
    (h : manualSelectionFlow mechanisms media client inputs = .ok r) :
    r.usedSavedPreferences = false ∧ r.savedPreferences ≠ none := by
  unfold manualSelectionFlow at h
  rcases hsel : selectTanMechanism mechanisms client inputs with - |
      ⟨⟨mech_key, mech_name, chosen⟩, client', inputs'⟩ <;>
    rw [hsel] at h <;> dsimp only at h
  · exact absurd h (by simp)
  · by_cases hneed : (pyTruthyBool chosen.needs_tan_medium
        || decide (chosen.supported_media_number > 0)) = true
    · rw [if_pos hneed] at h
      rcases hmed : selectTanMedium media client' inputs' with e |
          ⟨medium_name, client'', rest⟩ <;> rw [hmed] at h <;> dsimp only at h
      · exact absurd h (by simp)
      · simp only [Except.ok.injEq] at h
        subst h
        exact ⟨rfl, by simp⟩
    · rw [if_neg hneed] at h
      simp only [Except.ok.injEq] at h
      subst h
      exact ⟨rfl, by simp⟩

/-- C10: a cached mechanism id that is no longer advertised is never applied:
the preference replay reports failure without touching the client, and any
successful bootstrap run goes through manual selection (and persists a fresh
preference). -/
theorem C10_stale_mechanism_falls_through (settings : Settings)
    (mechanisms : List (String × TanMechanism)) (media : List TanMedium)
    (client : ClientState) (inputs : List String) (mechKey : String)
    (hmech : settings.tan_mechanism = some mechKey)
    (htruthy : pyTruthy settings.tan_mechanism = true)
    (hname : pyTruthy settings.tan_mechanism_name = true)
    (habsent : mechanisms.lookup mechKey = none) :
    tryUseSavedPreferences settings mechanisms media client = (false, client)
    ∧ (∀ r, interactiveCliBootstrap mechanisms media settings false client inputs
          = .ok r →
        r.usedSavedPreferences = false ∧ r.savedPreferences ≠ none) := by
  have h1 : tryUseSavedPreferences settings mechanisms media client
      = (false, client) := by
    unfold tryUseSavedPreferences
    rw [if_neg (by simp [htruthy, hname]), hmech]
    dsimp only
    rw [habsent]
  refine ⟨h1, fun r hr => ?_⟩
  unfold interactiveCliBootstrap at hr
  by_cases hlen : (mechanisms.length == 0) = true
  · rw [if_pos hlen] at hr
    exact absurd hr (by simp)
  · rw [if_neg hlen, if_neg (by simp)] at hr
    rw [h1] at hr
    dsimp only at hr
    exact manualSelectionFlow_manual _ _ _ _ _ hr

/-- C10 witness: cached mechanism "902" is not among the advertised
mechanisms, so replay fails and the client is untouched. -/
theorem C10_stale_mechanism_falls_through_witness :
    tryUseSavedPreferences ⟨some "902", some "Old mechanism", none⟩
        [("901", ⟨"SMS TAN", none, 0⟩)] [] ⟨none, none⟩
      = (false, ⟨none, none⟩) :=
  (C10_stale_mechanism_falls_through ⟨some "902", some "Old mechanism", none⟩
    [("901", ⟨"SMS TAN", none, 0⟩)] [] ⟨none, none⟩ [] "902"
    rfl (by decide) (by decide) (by decide)).1

/-- C3 counterexample: a cached preference whose mechanism "901" is still
advertised and requires a TAN medium, with no medium cached, is applied by
the preference replay: `_try_use_saved_preferences` reports success and the
bootstrap resolves the attempt with the mechanism set and no medium, instead
of falling through to manual selection. -/
theorem C3_counterexample :
    tryUseSavedPreferences ⟨some "901", some "SMS TAN", none⟩
        [("901", ⟨"SMS TAN", some true, 1⟩)] [⟨"Phone1"⟩] ⟨none, none⟩
      = (true, ⟨some "901", none⟩)
    ∧ interactiveCliBootstrap [("901", ⟨"SMS TAN", some true, 1⟩)] [⟨"Phone1"⟩]
        ⟨some "901", some "SMS TAN", none⟩ false ⟨none, none⟩ []
      = .ok ⟨true, none, ⟨some "901", none⟩⟩ :=
  ⟨rfl, rfl⟩

/-- C3 (amended): for a cached mechanism that is still advertised and
requires a medium — when a medium is cached but its name matches no currently
advertised medium, replay fails (leaving only the mechanism applied) and any
successful bootstrap goes through manual selection; but when no medium is
cached at all, replay succeeds, applying the mechanism with no medium
selected. -/
theorem C3_medium_replay (settings : Settings)
    (mechanisms : List (String × TanMechanism)) (media : List TanMedium)
    (client : ClientState) (mechKey : String) (chosen : TanMechanism)
    (hmech : settings.tan_mechanism = some mechKey)
    (htruthy : pyTruthy settings.tan_mechanism = true)
    (hname : pyTruthy settings.tan_mechanism_name = true)
    (hlookup : mechanisms.lookup mechKey = some chosen)
    (hneeds : (pyTruthyBool chosen.needs_tan_medium
        || decide (chosen.supported_media_number > 0)) = true) :
    (pyTruthy settings.tan_medium = true →
      media.find? (fun medium => some medium.tan_medium_name == settings.tan_medium)
          = none →
      tryUseSavedPreferences settings mechanisms media client
          = (false, { client with tanMechanism := some mechKey })
        ∧ ∀ inputs r,
            interactiveCliBootstrap mechanisms media settings false client inputs
              = .ok r →
            r.usedSavedPreferences = false ∧ r.savedPreferences ≠ none)
    ∧ (pyTruthy settings.tan_medium = false →
        tryUseSavedPreferences settings mechanisms media client
          = (true, { client with tanMechanism := some mechKey })) := by
  have hlen : ¬((mechanisms.length == 0) = true) := by
    cases mechanisms with
    | nil => simp [List.lookup] at hlookup
    | cons head tail => simp
  constructor
  · intro hmedium hfind
    have h1 : tryUseSavedPreferences settings mechanisms media client
        = (false, { client with tanMechanism := some mechKey }) := by
      unfold tryUseSavedPreferences
      rw [if_neg (by simp [htruthy, hname]), hmech]
      dsimp only
      rw [hlookup]
      dsimp only
      rw [if_pos (by simp [hneeds, hmedium]), hfind]
    refine ⟨h1, fun inputs r hr => ?_⟩
    unfold interactiveCliBootstrap at hr
    rw [if_neg hlen, if_neg (by simp), h1] at hr
    dsimp only at hr
    exact manualSelectionFlow_manual _ _ _ _ _ hr
  · intro hmedium
    unfold tryUseSavedPreferences
    rw [if_neg (by simp [htruthy, hname]), hmech]
    dsimp only
    rw [hlookup]
    dsimp only
    rw [if_neg (by simp [hmedium])]

/-- C3 witness: cached medium "GonePhone" matches no advertised medium, so
replay fails with only the mechanism applied. -/
theorem C3_medium_replay_witness :
    tryUseSavedPreferences ⟨some "901", some "SMS TAN", some "GonePhone"⟩
        [("901", ⟨"SMS TAN", some true, 1⟩)] [⟨"Phone1"⟩] ⟨none, none⟩
      = (false, ⟨some "901", none⟩) :=
  ((C3_medium_replay ⟨some "901", some "SMS TAN", some "GonePhone"⟩
    [("901", ⟨"SMS TAN", some true, 1⟩)] [⟨"Phone1"⟩] ⟨none, none⟩ "901"
    ⟨"SMS TAN", some true, 1⟩ rfl (by decide) (by decide) (by decide)
    (by decide)).1 (by decide) (by decide)).1

/-! Calendar lemmas for C9. -/

set_option maxHeartbeats 1600000 in
/-- One year of days: the difference of consecutive `daysBeforeYear` values
is 365 plus the leap correction for the elapsed year. -/
theorem daysBeforeYear_succ (y : Nat) (hy : 2 ≤ y) :
    daysBeforeYear y = daysBeforeYear (y - 1) + 365 +
      (if isLeapYear (y - 1) = true then 1 else 0) := by
  have hb : (if isLeapYear (y - 1) = true then 1 else 0)
      = (if (y - 1) % 4 = 0 ∧ ((y - 1) % 100 ≠ 0 ∨ (y - 1) % 400 = 0)
          then 1 else 0) := by
    unfold isLeapYear
    by_cases h4 : (y - 1) % 4 = 0 <;> by_cases h100 : (y - 1) % 100 = 0 <;>
      by_cases h400 : (y - 1) % 400 = 0 <;> simp [h4, h100, h400]
  rw [hb]
  unfold daysBeforeYear
  by_cases h4 : (y - 1) % 4 = 0 <;> by_cases h100 : (y - 1) % 100 = 0 <;>
    by_cases h400 : (y - 1) % 400 = 0 <;> simp [h4, h100, h400] <;> omega

set_option maxHeartbeats 1000000 in
/-- Decrementing a valid date (other than day 1) stays valid and decrements
the ordinal by one. -/
theorem prevDay_spec (d : Date) (hv : ValidDate d) (h2 : 2 ≤ toOrdinal d) :
    ValidDate (prevDay d) ∧ toOrdinal (prevDay d) + 1 = toOrdinal d := by
  obtain ⟨y, m, dd⟩ := d
  obtain ⟨hy1, hy2, hm1, hm2, hd1, hd2⟩ := hv
  dsimp only at hy1 hy2 hm1 hm2 hd1 hd2
  unfold prevDay
  dsimp only
  by_cases hdd : 1 < dd
  · rw [if_pos hdd]
    refine ⟨?_, ?_⟩
    · show 1 ≤ y ∧ y ≤ 9999 ∧ 1 ≤ m ∧ m ≤ 12 ∧ 1 ≤ dd - 1 ∧ dd - 1 ≤ daysInMonth y m
      exact ⟨hy1, hy2, hm1, hm2, by omega, by omega⟩
    · show daysBeforeYear y + daysBeforeMonth y m + (dd - 1) + 1
          = daysBeforeYear y + daysBeforeMonth y m + dd
      omega
  · rw [if_neg hdd]
    have hdd1 : dd = 1 := by omega
    subst hdd1
    by_cases hmm : 1 < m
    · rw [if_pos hmm]
      refine ⟨?_, ?_⟩
      · simp only [ValidDate]
        interval_cases m <;> by_cases hl : isLeapYear y = true <;>
          simp [daysInMonth, hl] <;> omega
      · simp only [toOrdinal]
        interval_cases m <;> by_cases hl : isLeapYear y = true <;>
          simp [daysInMonth, daysBeforeMonth, hl] <;> omega
    · rw [if_neg hmm]
      have hmm1 : m = 1 := by omega
      subst hmm1
      have hyge : 2 ≤ y := by
        by_contra hcon
        have hy1' : y = 1 := by omega
        subst hy1'
        have hone : toOrdinal ⟨1, 1, 1⟩ = 1 := by decide
        omega
      refine ⟨?_, ?_⟩
      · show 1 ≤ y - 1 ∧ y - 1 ≤ 9999 ∧ 1 ≤ 12 ∧ 12 ≤ 12 ∧ 1 ≤ 31 ∧
            31 ≤ daysInMonth (y - 1) 12
        refine ⟨by omega, by omega, by norm_num, le_refl _, by norm_num, ?_⟩
        simp [daysInMonth]
      · show daysBeforeYear (y - 1) + daysBeforeMonth (y - 1) 12 + 31 + 1
            = daysBeforeYear y + daysBeforeMonth y 1 + 1
        have e12 : daysBeforeMonth (y - 1) 12
            = 334 + (if isLeapYear (y - 1) = true then 1 else 0) := by
          simp [daysBeforeMonth]
        have e1 : daysBeforeMonth y 1 = 0 := by
          simp [daysBeforeMonth]
        rw [e12, e1, daysBeforeYear_succ y hyge]
        omega

/-- `subDays` stays valid and subtracts exactly `n` from the ordinal, i.e.
it agrees with CPython `d - timedelta(days=n)`. -/
theorem subDays_toOrdinal (d : Date) (n : Nat) (hv : ValidDate d)
    (h : n + 1 ≤ toOrdinal d) :
    ValidDate (subDays d n) ∧ toOrdinal (subDays d n) + n = toOrdinal d := by
  induction n with
  | zero => exact ⟨hv, rfl⟩
  | succ k ih =>
    obtain ⟨hv', ho'⟩ := ih (by omega)
    have h2 : 2 ≤ toOrdinal (subDays d k) := by omega
    obtain ⟨hv'', ho''⟩ := prevDay_spec _ hv' h2
    refine ⟨hv'', ?_⟩
    show toOrdinal (prevDay (subDays d k)) + (k + 1) = toOrdinal d
    omega

/-- C9: for every current date, the five period choices of
`get_transaction_date_range` compute the documented ranges: 1 = (today,
today); 2 = (Monday of today's week, today), i.e. a valid date of weekday
Monday at most six days back; 3 = (first of today's month, today);
4 = (January 1 of today's year, today); any other choice = (today − 365
days, today) in the ordinal sense. -/
theorem C9_transaction_date_ranges (today : Date) (hv : ValidDate today)
    (hord : 366 ≤ toOrdinal today) :
    getTransactionDateRange 1 today = (today, today)
    ∧ (getTransactionDateRange 2 today = (subDays today (weekday today), today)
        ∧ ValidDate (subDays today (weekday today))
        ∧ weekday (subDays today (weekday today)) = 0
        ∧ toOrdinal (subDays today (weekday today)) + weekday today = toOrdinal today
        ∧ weekday today < 7)
    ∧ getTransactionDateRange 3 today = (⟨today.year, today.month, 1⟩, today)
    ∧ getTransactionDateRange 4 today = (⟨today.year, 1, 1⟩, today)
    ∧ (getTransactionDateRange 5 today = (subDays today 365, today)
        ∧ ValidDate (subDays today 365)
        ∧ toOrdinal (subDays today 365) + 365 = toOrdinal today) := by
  have hw7 : weekday today < 7 := Nat.mod_lt _ (by norm_num)
  obtain ⟨hvw, how⟩ := subDays_toOrdinal today (weekday today) hv (by omega)
  obtain ⟨hv365, ho365⟩ := subDays_toOrdinal today 365 hv (by omega)
  refine ⟨rfl, ⟨rfl, hvw, ?_, how, hw7⟩, rfl, rfl, rfl, hv365, ho365⟩
  unfold weekday at how ⊢
  omega

/-- C9 witness: evaluated at Wednesday 2025-10-08. -/
theorem C9_transaction_date_ranges_witness :
    ValidDate ⟨2025, 10, 8⟩ ∧ 366 ≤ toOrdinal ⟨2025, 10, 8⟩
    ∧ getTransactionDateRange 3 ⟨2025, 10, 8⟩ = (⟨2025, 10, 1⟩, ⟨2025, 10, 8⟩) :=
  ⟨by decide, by decide,
    (C9_transaction_date_ranges ⟨2025, 10, 8⟩ (by decide) (by decide)).2.2.1⟩

end FintsPostbank
